import Mathlib

/-!
Verification of the minagent control loop (repository minllm, package
minagent). The definitions below are a shallow embedding of the Python
sources src/minagent/nodes.py, src/minagent/flow.py and src/minagent/agent.py.
Python dictionaries become association lists, Python exceptions become an
explicit error type threaded through Except, and Python callables used as
tools become pairs of entry points (keyword call and positional call).
Logging (src/minagent/logger.py) is advisory only per the specification and
does not affect control flow, so it is not modelled. The LLM transport
(src/minagent/utils.py call_llm) and the YAML loader are external
collaborators and are parameters of the embedding.
-/

set_option autoImplicit false

namespace Minagent

/-- Python runtime values as they occur in decisions, tool arguments and
tool results: None, booleans, integers, strings and dictionaries keyed by
strings (the shapes produced by parsing the YAML decision block). -/
inductive Value where
  | null : Value
  | bool : Bool → Value
  | int : Int → Value
  | str : String → Value
  | dict : List (String × Value) → Value

/-- The kinds of Python exceptions the embedded code can raise: IndexError
from indexing a too-short split result, KeyError from a missing dictionary
key, TypeError from indexing a non-dictionary or using an unhashable key,
AttributeError from calling .get on a non-dictionary, and ValueError from
the transport layer. The repository defines no DecisionParseError class. -/
inductive PyError where
  | indexError : PyError
  | keyError : PyError
  | typeError : PyError
  | attributeError : PyError
  | valueError : PyError
  deriving DecidableEq

/-- Python str() on characters considered whitespace by str.strip(). -/
def isPySpace (c : Char) : Bool :=
  c.toNat == 32 || c.toNat == 9 || c.toNat == 10 || c.toNat == 13 ||
  c.toNat == 11 || c.toNat == 12

/-- Python str.strip(): drop leading and trailing whitespace. -/
def pyStrip (s : String) : String :=
  ⟨((s.data.dropWhile isPySpace).reverse.dropWhile isPySpace).reverse⟩

/-- Python string slicing s[:n] by code points. -/
def pyTake (s : String) (n : Nat) : String :=
  ⟨s.data.take n⟩

/-- Python str.upper() (ASCII case, sufficient for the role labels). -/
def pyUpper (s : String) : String :=
  ⟨s.data.map Char.toUpper⟩

mutual

/-- Python repr() of a value (used by str() on dictionary members). -/
def pyRepr : Value → String
  | .null => "None"
  | .bool true => "True"
  | .bool false => "False"
  | .int n => toString n
  | .str s => "\x27" ++ s ++ "\x27"
  | .dict m => "\x7b" ++ String.intercalate ", " (pyReprPairs m) ++ "\x7d"

/-- repr() of the entries of a dictionary. -/
def pyReprPairs : List (String × Value) → List String
  | [] => []
  | p :: rest => ("\x27" ++ p.1 ++ "\x27: " ++ pyRepr p.2) :: pyReprPairs rest

end

/-- Python str() of a value. -/
def pyStr : Value → String
  | .str s => s
  | v => pyRepr v

/-- Python d[k] on a value: KeyError when the key is missing, TypeError when
the value is not a dictionary. -/
def valueGet : Value → String → Except PyError Value
  | .dict m, k =>
    match m.lookup k with
    | some v => .ok v
    | none => .error .keyError
  | _, _ => .error .typeError

/-- Python d.get(k, dflt) on a value: AttributeError when the value is not a
dictionary. -/
def valueGetD : Value → String → Value → Except PyError Value
  | .dict m, k, dflt => .ok ((m.lookup k).getD dflt)
  | _, _, _ => .error .attributeError

/-- True exactly on dictionary values (Python isinstance(x, dict)). -/
def isDictB : Value → Bool
  | .dict _ => true
  | _ => false

/-- The pair list of a dictionary value (empty on non-dictionaries). -/
def dictPairs : Value → List (String × Value)
  | .dict m => m
  | _ => []

/-- A Python callable registered as a tool, seen through its two invocation
shapes in CallTool.exec: a keyword call f(**args) when the arguments are a
mapping, and a single positional call f(args) otherwise. A raised exception
is an error value carrying str(e). Argument-binding failures of the call
itself are part of these functions. -/
structure PyCallable where
  callKw : List (String × Value) → Except String Value
  callPos : Value → Except String Value

/-- A parameter record stored by Agent.register_tool: display label of the
declared type, default value (None collapses with absent, as in the Python),
and a kind label. -/
structure ParamInfo where
  type : String
  default : Option Value
  kind : String

/-- A tool registry entry as built by Agent.register_tool. -/
structure ToolInfo where
  name : String
  function : PyCallable
  description : String
  parameters : List (String × ParamInfo)

/-- One entry of shared['tool_calls'] as appended by CallTool.post:
the raw tool name value, the raw arguments value, and the result string. -/
structure ToolCallRecord where
  tool : Value
  args : Value
  result : String

/-- One message of Agent.conversation_history. -/
structure Message where
  role : String
  content : Value

/-- The shared run context threaded through the flow (Agent.run lines
83 to 89 plus the keys the nodes add). -/
structure Shared where
  query : String
  basePrompt : String
  conversationHistory : String
  toolRegistry : List (String × ToolInfo)
  toolCalls : List ToolCallRecord
  lastDecision : Option Value
  finalAnswer : Option Value

/-- Record update performed by CallTool.post line 164: append one
ToolCallRecord to shared['tool_calls']. -/
def pushRecord (sh : Shared) (t : Value) (a : Value) (r : String) : Shared :=
  { sh with toolCalls := sh.toolCalls ++ [⟨t, a, r⟩] }

/-- shared['last_decision'] = exec_res (DecideAction.post line 97). -/
def setDecision (sh : Shared) (d : Value) : Shared :=
  { sh with lastDecision := some d }

/-- shared['final_answer'] = exec_res['final_answer'] (DecideAction.post
line 105). -/
def setAnswer (sh : Shared) (f : Value) : Shared :=
  { sh with finalAnswer := some f }

/-- Split a character list at the first occurrence of a separator,
returning the part before it and the part after it. This captures the two
uses of Python str.split in DecideAction.exec line 87: taking split(sep)[1]
and split(sep)[0]. -/
def splitFirst (sep : List Char) : List Char → Option (List Char × List Char)
  | [] => if sep.isEmpty then some ([], []) else none
  | c :: rest =>
    if sep.isPrefixOf (c :: rest) then some ([], (c :: rest).drop sep.length)
    else
      match splitFirst sep rest with
      | some (pre, post) => some (c :: pre, post)
      | none => none

/-- The opening fence marker of the structured decision block. -/
def yamlFence : String := "```yaml"

/-- The closing fence marker. -/
def fenceEnd : String := "```"

/-- DecideAction.exec line 87: response.split(yamlFence)[1].split(fenceEnd)
[0].strip(). Indexing element 1 of the first split raises IndexError when
the response contains no opening fence. -/
def extractYamlBlock (response : String) : Except PyError String :=
  match splitFirst yamlFence.data response.data with
  | none => .error .indexError
  | some (_, rest) =>
    match splitFirst fenceEnd.data rest with
    | none => .ok (pyStrip ⟨rest⟩)
    | some (pre, _) => .ok (pyStrip ⟨pre⟩)

/-- One parameter entry of a tool line in the prompt (DecideAction.exec
lines 31 to 36): "name: type" with " = default" appended when the stored
default is not None. -/
def paramDesc (pname : String) (pinfo : ParamInfo) : String :=
  match pinfo.default with
  | some v => pname ++ ": " ++ pinfo.type ++ " = " ++ pyStr v
  | none => pname ++ ": " ++ pinfo.type

/-- One tool line of the prompt (DecideAction.exec lines 28 to 39). -/
def toolDesc (name : String) (info : ToolInfo) : String :=
  let ps := info.parameters.map (fun p => paramDesc p.1 p.2)
  let paramsText :=
    if ps.isEmpty then "()" else "(" ++ String.intercalate ", " ps ++ ")"
  "- " ++ name ++ paramsText ++ ": " ++ info.description

/-- The available-tools section body (DecideAction.exec line 40). -/
def toolsText (reg : List (String × ToolInfo)) : String :=
  if reg.isEmpty then "No tools available"
  else String.intercalate "\n" (reg.map (fun p => toolDesc p.1 p.2))

/-- One line of the recent-tool-calls section (DecideAction.exec line 47):
the tool name, the result cut to its first 200 characters, and a literal
ellipsis suffix. -/
def histLine (call : ToolCallRecord) : String :=
  "- " ++ pyStr call.tool ++ ": " ++ pyTake call.result 200 ++ "..."

/-- The recent-tool-calls section (DecideAction.exec lines 43 to 48): empty
when no tool call has been recorded, otherwise a header line followed by
one line for each of the last five records. -/
def buildToolHistory (toolCalls : List ToolCallRecord) : String :=
  if toolCalls.isEmpty then ""
  else
    "\nRecent Tool Calls:\n" ++
      String.intercalate "\n"
        ((toolCalls.drop (toolCalls.length - 5)).map histLine)

/-- The fixed instruction tail of the prompt template (DecideAction.exec
lines 63 to 79). -/
def decisionInstructions : String :=
  "\n\n### DECISION\nDecide the next action. You can either:\n" ++
  "1. Call a tool to gather information\n" ++
  "2. Provide the final answer if you have sufficient information\n\n" ++
  "Return your decision in YAML format:\n\n" ++
  "```yaml\nthinking: |\n" ++
  "    <step-by-step reasoning about what to do next>\n" ++
  "action: tool OR answer\n" ++
  "tool_name: <name of tool if action is tool>\n" ++
  "tool_args: <arguments for tool as a dict if action is tool>\n" ++
  "final_answer: |\n    <complete answer if action is answer>\n```\n"

/-- The assembled prompt (DecideAction.exec lines 50 to 79). -/
def buildPrompt (sh : Shared) : String :=
  "### SYSTEM\n" ++ sh.basePrompt ++
  "\n\n### CONVERSATION HISTORY\n" ++ sh.conversationHistory ++
  "\n\n### CURRENT QUERY\n" ++ sh.query ++
  "\n\n### AVAILABLE TOOLS\n" ++ toolsText sh.toolRegistry ++
  "\n" ++ buildToolHistory sh.toolCalls ++
  decisionInstructions

/-- DecideAction.exec (lines 21 to 90): assemble the prompt, call the
transport, extract the fenced block, hand it to the YAML loader. The
transport llm and the loader yamlLoad are external collaborators passed in
as functions. -/
def decideActionExec (llm : String → String)
    (yamlLoad : String → Except PyError Value) (sh : Shared) :
    Except PyError Value :=
  match extractYamlBlock (llm (buildPrompt sh)) with
  | .error e => .error e
  | .ok yamlStr => yamlLoad yamlStr

/-- Python exec_res['action'] == 'tool' (DecideAction.post line 102): true
exactly when the value is the string "tool". -/
def isToolAction : Value → Bool
  | .str s => decide (s = "tool")
  | _ => false

/-- DecideAction.post (lines 92 to 106): store the decision, read its
action field (this read raises on a missing key or a non-mapping decision,
with the decision already stored), route to "tool" when the action equals
the string "tool", otherwise copy the final_answer field into the shared
context and route to "answer". Raised errors carry the shared context as it
stands. -/
def decideActionPost (sh : Shared) (execRes : Value) :
    Except (PyError × Shared) (String × Shared) :=
  let sh1 := setDecision sh execRes
  match valueGet execRes "action" with
  | .error e => .error (e, sh1)
  | .ok a =>
    if isToolAction a then .ok ("tool", sh1)
    else
      match valueGet execRes "final_answer" with
      | .error e => .error (e, sh1)
      | .ok fa => .ok ("answer", setAnswer sh1 fa)

/-- Registry resolution in CallTool.prep line 119: dictionary .get with the
raw tool-name value. String names look the registry up, unhashable values
(dictionaries) raise TypeError, other hashable values match no string key. -/
def lookupTool (reg : List (String × ToolInfo)) : Value →
    Except PyError (Option ToolInfo)
  | .str s => .ok (List.lookup s reg)
  | .dict _ => .error .typeError
  | _ => .ok none

/-- CallTool.prep (lines 109 to 124): read the stored decision, its
tool_name field (KeyError when absent) and its tool_args field (empty
mapping default), and resolve the tool; an absent tool yields no callable
rather than an error. -/
def callToolPrep (sh : Shared) :
    Except PyError (Option PyCallable × Value × Value) :=
  match sh.lastDecision with
  | none => .error .keyError
  | some d =>
    match valueGet d "tool_name" with
    | .error e => .error e
    | .ok toolName =>
      match valueGetD d "tool_args" (Value.dict []) with
      | .error e => .error e
      | .ok toolArgs =>
        match lookupTool sh.toolRegistry toolName with
        | .error e => .error e
        | .ok none => .ok (none, toolName, toolArgs)
        | .ok (some info) => .ok (some info.function, toolName, toolArgs)

/-- The dispatch of CallTool.exec lines 140 to 143: keyword call when the
arguments are a mapping, otherwise one positional argument. -/
def pyInvoke (f : PyCallable) : Value → Except String Value
  | .dict m => f.callKw m
  | v => f.callPos v

/-- CallTool.exec (lines 126 to 154): a missing callable becomes the
not-found error string; otherwise the tool is invoked and its return value
stringified, and any exception raised by the tool body is caught and
formatted, never re-raised. -/
def callToolExec : Option PyCallable × Value × Value → String
  | (none, toolName, _) =>
    "Error: Tool \x27" ++ pyStr toolName ++ "\x27 not found"
  | (some f, toolName, toolArgs) =>
    match pyInvoke f toolArgs with
    | .ok result => pyStr result
    | .error e => "Error calling " ++ pyStr toolName ++ ": " ++ e

/-- CallTool.post (lines 156 to 173): append exactly one record with the
raw name and arguments and the result string, then route to "decide". -/
def callToolPost (sh : Shared) (prepRes : Option PyCallable × Value × Value)
    (execRes : String) : String × Shared :=
  ("decide", pushRecord sh prepRes.2.1 prepRes.2.2 execRes)

/-- ProvideAnswer.prep (line 180): shared.get('final_answer',
'No answer generated'). -/
def provideAnswerPrep (sh : Shared) : Value :=
  sh.finalAnswer.getD (Value.str "No answer generated")

/-- The states of the control loop. Modelled from the spec: section 4.4
names the states DECIDING, CALLING_TOOL and DONE; the node wired between
the answer route and termination (ProvideAnswer) is kept as its own state
so that the step into DONE is explicit. -/
inductive FlowState where
  | deciding : FlowState
  | callingTool : FlowState
  | providingAnswer : FlowState
  | done : FlowState
  deriving DecidableEq

/-- Successors of the decision node as wired in create_agent_flow lines
24 to 25: the "tool" route reaches CallTool, the "answer" route reaches
ProvideAnswer, anything else has no successor. -/
def decideNext (act : String) : Option FlowState :=
  if act == "tool" then some .callingTool
  else if act == "answer" then some .providingAnswer
  else none

/-- Successor of the tool node as wired in create_agent_flow line 26: the
"decide" route returns to the decision node. -/
def callToolNext (act : String) : Option FlowState :=
  if act == "decide" then some .deciding else none

/-- One step of the flow. Modelled from the spec: the minllm Flow and Node
engine is not under src/; per sections 2 and 4.4 a node runs prep, exec and
post in order, the engine follows the successor labeled with the action
string returned by post, and a missing successor ends the flow. Raised
exceptions propagate to the caller together with the shared context as it
stands. -/
def flowStep (llm : String → String)
    (yamlLoad : String → Except PyError Value) :
    FlowState → Shared → Except (PyError × Shared) (FlowState × Shared)
  | .deciding, sh =>
    match decideActionExec llm yamlLoad sh with
    | .error e => .error (e, sh)
    | .ok d =>
      match decideActionPost sh d with
      | .error e => .error e
      | .ok (act, sh1) => .ok ((decideNext act).getD .done, sh1)
  | .callingTool, sh =>
    match callToolPrep sh with
    | .error e => .error (e, sh)
    | .ok prepRes =>
      let (act, sh1) := callToolPost sh prepRes (callToolExec prepRes)
      .ok ((callToolNext act).getD .done, sh1)
  | .providingAnswer, sh =>
    let _ := provideAnswerPrep sh
    .ok (.done, sh)
  | .done, sh => .ok (.done, sh)

/-- Iterate the flow from a state until it reaches the terminal state or an
exception propagates; the fuel bounds the number of steps taken in the
model of the unbounded Python loop (the spec notes there is no step cap). -/
def runFlow (llm : String → String)
    (yamlLoad : String → Except PyError Value) :
    Nat → FlowState → Shared → Except (PyError × Shared) Shared
  | 0, _, sh => .ok sh
  | n + 1, st, sh =>
    match st with
    | .done => .ok sh
    | _ =>
      match flowStep llm yamlLoad st sh with
      | .error e => .error e
      | .ok (st1, sh1) => runFlow llm yamlLoad n st1 sh1

/-- Agent._get_optimized_history (lines 107 to 121): render the last 20
messages oldest first, or a placeholder when there are none. -/
def getOptimizedHistory (h : List Message) : String :=
  let recent := h.drop (h.length - 20)
  if recent.isEmpty then "No previous conversation"
  else
    String.intercalate "\n"
      (recent.map (fun m => pyUpper m.role ++ ": " ++ pyStr m.content))

/-- The shared context Agent.run builds (lines 83 to 89), after the user
query has been appended to the conversation history (line 77). -/
def initShared (bp : String) (reg : List (String × ToolInfo))
    (hist : List Message) (q : String) : Shared :=
  { query := q
    basePrompt := bp
    conversationHistory :=
      getOptimizedHistory (hist ++ [⟨"user", Value.str q⟩])
    toolRegistry := reg
    toolCalls := []
    lastDecision := none
    finalAnswer := none }

/-- The tail of Agent.run (lines 96 to 105): read the final answer with the
fallback string, append the assistant message to the conversation history,
extend the lifetime tool-call log, and return the answer. -/
def finishRun (history1 : List Message) (tch : List ToolCallRecord)
    (sh : Shared) : Value × List Message × List ToolCallRecord :=
  let answer := sh.finalAnswer.getD (Value.str "Unable to generate response")
  (answer, history1 ++ [⟨"assistant", answer⟩], tch ++ sh.toolCalls)

/-- Agent.run (lines 64 to 105): append the user query, run the flow from
the decision state over a fresh shared context, and finish. A raised
exception propagates to the caller. -/
def agentRun (llm : String → String)
    (yamlLoad : String → Except PyError Value) (fuel : Nat) (bp : String)
    (reg : List (String × ToolInfo)) (hist : List Message)
    (tch : List ToolCallRecord) (q : String) :
    Except (PyError × Shared) (Value × List Message × List ToolCallRecord) :=
  match runFlow llm yamlLoad fuel .deciding (initShared bp reg hist q) with
  | .error e => .error e
  | .ok sh => .ok (finishRun (hist ++ [⟨"user", Value.str q⟩]) tch sh)

/-- Agent.register_tool (lines 30 to 57) works by reflection on the
callable. The reflected facts are modelled as a record: the declared name,
the parameter list with optional annotation labels and optional defaults
and kind labels, the cleaned docstring as inspect.getdoc returns it (absent
when the callable has none), and the callable itself. -/
structure PyFunction where
  name : String
  params : List (String × Option String × Option Value × String)
  doc : Option String
  fn : PyCallable

/-- The stored default (register_tool lines 40 to 44): the declared default
when present; Python cannot tell an explicit default of None from no
default, both are stored as None. -/
def storeDefault : Option Value → Option Value
  | some .null => none
  | some v => some v
  | none => none

/-- Python truthiness of the docstring in line 35: inspect.getdoc(tool) or
the placeholder, so both a missing and an empty docstring fall back. -/
def docOrPlaceholder (doc : Option String) (name : String) : String :=
  match doc with
  | some d => if d = "" then "Function " ++ name else d
  | none => "Function " ++ name

/-- Agent.register_tool (lines 30 to 57): build the registry entry from the
reflected callable. -/
def register_tool (tool : PyFunction) : ToolInfo :=
  { name := tool.name
    function := tool.fn
    description := docOrPlaceholder tool.doc tool.name
    parameters :=
      tool.params.map (fun p =>
        (p.1, { type := p.2.1.getD "Any"
                default := storeDefault p.2.2.1
                kind := p.2.2.2 })) }

/-! ### Helper lemmas about the step machine -/

/-- The terminal state is absorbing for any amount of fuel. -/
theorem runFlow_done (llm : String → String)
    (yamlLoad : String → Except PyError Value) (n : Nat) (sh : Shared) :
    runFlow llm yamlLoad n .done sh = .ok sh := by
  cases n <;> rfl

/-- The answer node performs one step to the terminal state, touching
neither the shared context nor the transport. -/
theorem flowStep_provideAnswer (llm : String → String)
    (yamlLoad : String → Except PyError Value) (sh : Shared) :
    flowStep llm yamlLoad .providingAnswer sh = .ok (.done, sh) := rfl

/-- Unfold one fuelled iteration of the loop from the decision state. -/
theorem runFlow_deciding_succ (llm : String → String)
    (yamlLoad : String → Except PyError Value) (n : Nat) (sh : Shared) :
    runFlow llm yamlLoad (n + 1) .deciding sh =
      match flowStep llm yamlLoad .deciding sh with
      | .error e => .error e
      | .ok (st1, sh1) => runFlow llm yamlLoad n st1 sh1 := rfl

/-- DecideAction.post routes to "tool" exactly on the tool action. -/
theorem decideActionPost_tool (sh : Shared) (d a : Value)
    (ha : valueGet d "action" = .ok a) (ht : isToolAction a = true) :
    decideActionPost sh d = .ok ("tool", setDecision sh d) := by
  simp [decideActionPost, ha, ht]

/-- DecideAction.post on any non-tool action copies the final answer. -/
theorem decideActionPost_answer (sh : Shared) (d a f : Value)
    (ha : valueGet d "action" = .ok a) (ht : isToolAction a = false)
    (hf : valueGet d "final_answer" = .ok f) :
    decideActionPost sh d = .ok ("answer", setAnswer (setDecision sh d) f) := by
  simp [decideActionPost, ha, ht, hf]

/-- A decision whose tool name resolves in the registry reaches
CallTool.exec with the callable of the registered tool. -/
theorem callToolPrep_found (sh : Shared) (d : Value) (name : String)
    (args : Value) (info : ToolInfo) (hd : sh.lastDecision = some d)
    (hn : valueGet d "tool_name" = .ok (Value.str name))
    (ha : valueGetD d "tool_args" (Value.dict []) = .ok args)
    (hreg : List.lookup name sh.toolRegistry = some info) :
    callToolPrep sh = .ok (some info.function, Value.str name, args) := by
  simp [callToolPrep, hd, hn, ha, lookupTool, hreg]

/-- A decision whose tool name is absent from the registry reaches
CallTool.exec with no callable. -/
theorem callToolPrep_missing (sh : Shared) (d : Value) (name : String)
    (args : Value) (hd : sh.lastDecision = some d)
    (hn : valueGet d "tool_name" = .ok (Value.str name))
    (ha : valueGetD d "tool_args" (Value.dict []) = .ok args)
    (hreg : List.lookup name sh.toolRegistry = none) :
    callToolPrep sh = .ok (none, Value.str name, args) := by
  simp [callToolPrep, hd, hn, ha, lookupTool, hreg]

/-- The tool state always records exactly the CallTool.exec result and
returns to the decision state, whatever the preparation produced. -/
theorem flowStep_callingTool (llm : String → String)
    (yamlLoad : String → Except PyError Value) (sh : Shared)
    (prepRes : Option PyCallable × Value × Value)
    (hprep : callToolPrep sh = .ok prepRes) :
    flowStep llm yamlLoad .callingTool sh =
      .ok (.deciding,
        pushRecord sh prepRes.2.1 prepRes.2.2 (callToolExec prepRes)) := by
  simp [flowStep, hprep, callToolPost, callToolNext]

/-! ### Concrete transports and inputs used by witnesses -/

/-- A degenerate transport used where the step under study never consults
the model. -/
def llmStub : String → String := fun _ => ""

/-- A degenerate YAML loader used where the step under study never parses. -/
def ylStub : String → Except PyError Value := fun _ => .error .valueError

/-- A transport whose response contains no fenced block. -/
def llmNoFence : String → String := fun _ => "I cannot answer that."

/-! ### C1 -/

/-- C1, counterexample: on a model response with no fenced block, run()
fails with the IndexError raised by indexing element 1 of the fence split,
not with a typed DecisionParseError (the PyError type enumerates every
exception kind the embedded code can raise, and the repository defines no
DecisionParseError); the carried run context still has an empty tool_calls
sequence. -/
theorem noFence_indexError_concrete :
    agentRun llmNoFence ylStub 5 "bp" [] [] [] "hi" =
      .error (.indexError, initShared "bp" [] [] "hi") ∧
    (initShared "bp" [] [] "hi").toolCalls = [] :=
  ⟨rfl, rfl⟩

/-- C1, amended: for every model response that contains no fenced
structured decision block, run() raises the unhandled IndexError from the
unguarded fence split (not a typed DecisionParseError, which the code does
not define), and the run context's tool_calls sequence remains empty. -/
theorem noFence_raises_indexError (llm : String → String)
    (yamlLoad : String → Except PyError Value) (bp : String)
    (reg : List (String × ToolInfo)) (hist : List Message)
    (tch : List ToolCallRecord) (q : String) (n : Nat)
    (h : splitFirst yamlFence.data
      ((llm (buildPrompt (initShared bp reg hist q))).data) = none) :
    agentRun llm yamlLoad (n + 1) bp reg hist tch q =
      .error (.indexError, initShared bp reg hist q) ∧
    (initShared bp reg hist q).toolCalls = [] := by
  have hex : extractYamlBlock (llm (buildPrompt (initShared bp reg hist q)))
      = .error .indexError := by
    simp [extractYamlBlock, h]
  have hstep : flowStep llm yamlLoad .deciding (initShared bp reg hist q)
      = .error (.indexError, initShared bp reg hist q) := by
    simp [flowStep, decideActionExec, hex]
  refine ⟨?_, rfl⟩
  simp [agentRun, runFlow_deciding_succ, hstep]

/-- C1, witness for the amended theorem at a concrete input. -/
theorem noFence_raises_indexError_witness :
    agentRun llmNoFence ylStub (0 + 1) "bp" [] [] [] "hi" =
      .error (.indexError, initShared "bp" [] [] "hi") ∧
    (initShared "bp" [] [] "hi").toolCalls = [] :=
  noFence_raises_indexError llmNoFence ylStub "bp" [] [] [] "hi" 0 rfl

/-! ### C2 -/

/-- C2: a tool body that raises is caught, the error is formatted with the
tool name and the exception message, exactly one record is appended, and
the flow returns to the decision state without propagating anything. -/
theorem toolException_caught_and_recorded (llm : String → String)
    (yamlLoad : String → Except PyError Value) (sh : Shared) (d : Value)
    (name : String) (args : Value) (info : ToolInfo) (msg : String)
    (hd : sh.lastDecision = some d)
    (hn : valueGet d "tool_name" = .ok (Value.str name))
    (ha : valueGetD d "tool_args" (Value.dict []) = .ok args)
    (hreg : List.lookup name sh.toolRegistry = some info)
    (hraise : pyInvoke info.function args = .error msg) :
    flowStep llm yamlLoad .callingTool sh =
      .ok (.deciding, pushRecord sh (Value.str name) args
        ("Error calling " ++ name ++ ": " ++ msg)) ∧
    (pushRecord sh (Value.str name) args
        ("Error calling " ++ name ++ ": " ++ msg)).toolCalls =
      sh.toolCalls ++
        [⟨Value.str name, args, "Error calling " ++ name ++ ": " ++ msg⟩] ∧
    (pushRecord sh (Value.str name) args
        ("Error calling " ++ name ++ ": " ++ msg)).toolCalls.length =
      sh.toolCalls.length + 1 := by
  have hexec : callToolExec (some info.function, Value.str name, args)
      = "Error calling " ++ name ++ ": " ++ msg := by
    simp [callToolExec, hraise, pyStr]
  refine ⟨?_, rfl, by simp [pushRecord]⟩
  simpa [hexec] using
    flowStep_callingTool llm yamlLoad sh _
      (callToolPrep_found sh d name args info hd hn ha hreg)

/-- A tool whose body always raises an exception with message boom. -/
def boomTool : PyCallable :=
  ⟨fun _ => .error "boom", fun _ => .error "boom"⟩

/-- Registry entry for the raising tool. -/
def infoBoom : ToolInfo := ⟨"boom", boomTool, "Function boom", []⟩

/-- A decision selecting the raising tool. -/
def dBoom : Value :=
  .dict [("action", .str "tool"), ("tool_name", .str "boom"),
         ("tool_args", .dict [])]

/-- A run context about to execute the raising tool. -/
def shBoom : Shared :=
  ⟨"q", "bp", "none", [("boom", infoBoom)], [], some dBoom, none⟩

/-- C2, witness at a concrete raising tool. -/
theorem toolException_caught_and_recorded_witness :
    flowStep llmStub ylStub .callingTool shBoom =
      .ok (.deciding, pushRecord shBoom (Value.str "boom") (Value.dict [])
        ("Error calling " ++ "boom" ++ ": " ++ "boom")) ∧
    (pushRecord shBoom (Value.str "boom") (Value.dict [])
        ("Error calling " ++ "boom" ++ ": " ++ "boom")).toolCalls =
      shBoom.toolCalls ++
        [⟨Value.str "boom", Value.dict [],
          "Error calling " ++ "boom" ++ ": " ++ "boom"⟩] ∧
    (pushRecord shBoom (Value.str "boom") (Value.dict [])
        ("Error calling " ++ "boom" ++ ": " ++ "boom")).toolCalls.length =
      shBoom.toolCalls.length + 1 :=
  toolException_caught_and_recorded llmStub ylStub shBoom dBoom "boom"
    (Value.dict []) infoBoom "boom" rfl rfl rfl rfl rfl

/-! ### C3 -/

/-- A run context whose stored decision names an unregistered tool. -/
def shFoo : Shared :=
  ⟨"q", "bp", "none", [], [], some (.dict [("tool_name", .str "foo")]), none⟩

/-- C3, counterexample: with the unregistered tool name foo, the appended
record's result string is the Error-prefixed message, which differs from
the bare string the claim states. -/
theorem toolMissing_literal_message_concrete :
    flowStep llmStub ylStub .callingTool shFoo =
      .ok (.deciding, pushRecord shFoo (Value.str "foo") (Value.dict [])
        "Error: Tool \x27foo\x27 not found") ∧
    ("Error: Tool \x27foo\x27 not found" : String) ≠
      "Tool \x27foo\x27 not found" :=
  ⟨rfl, by decide⟩

/-- C3, amended: for every Decision with a tool name absent from the
registry, no exception is raised, exactly one record is appended whose
result string is the Error-prefixed not-found message (which contains the
literal tool name), and the next state is the decision state. -/
theorem toolMissing_recorded_error_string (llm : String → String)
    (yamlLoad : String → Except PyError Value) (sh : Shared) (d : Value)
    (name : String) (args : Value)
    (hd : sh.lastDecision = some d)
    (hn : valueGet d "tool_name" = .ok (Value.str name))
    (ha : valueGetD d "tool_args" (Value.dict []) = .ok args)
    (hreg : List.lookup name sh.toolRegistry = none) :
    flowStep llm yamlLoad .callingTool sh =
      .ok (.deciding, pushRecord sh (Value.str name) args
        ("Error: Tool \x27" ++ name ++ "\x27 not found")) ∧
    (pushRecord sh (Value.str name) args
        ("Error: Tool \x27" ++ name ++ "\x27 not found")).toolCalls =
      sh.toolCalls ++
        [⟨Value.str name, args, "Error: Tool \x27" ++ name ++ "\x27 not found"⟩] ∧
    (pushRecord sh (Value.str name) args
        ("Error: Tool \x27" ++ name ++ "\x27 not found")).toolCalls.length =
      sh.toolCalls.length + 1 := by
  have hexec : callToolExec (none, Value.str name, args)
      = "Error: Tool \x27" ++ name ++ "\x27 not found" := by
    simp [callToolExec, pyStr]
  refine ⟨?_, rfl, by simp [pushRecord]⟩
  simpa [hexec] using
    flowStep_callingTool llm yamlLoad sh _
      (callToolPrep_missing sh d name args hd hn ha hreg)

/-- C3, witness for the amended theorem at the concrete context. -/
theorem toolMissing_recorded_error_string_witness :
    flowStep llmStub ylStub .callingTool shFoo =
      .ok (.deciding, pushRecord shFoo (Value.str "foo") (Value.dict [])
        ("Error: Tool \x27" ++ "foo" ++ "\x27 not found")) ∧
    (pushRecord shFoo (Value.str "foo") (Value.dict [])
        ("Error: Tool \x27" ++ "foo" ++ "\x27 not found")).toolCalls =
      shFoo.toolCalls ++
        [⟨Value.str "foo", Value.dict [],
          "Error: Tool \x27" ++ "foo" ++ "\x27 not found"⟩] ∧
    (pushRecord shFoo (Value.str "foo") (Value.dict [])
        ("Error: Tool \x27" ++ "foo" ++ "\x27 not found")).toolCalls.length =
      shFoo.toolCalls.length + 1 :=
  toolMissing_recorded_error_string llmStub ylStub shFoo
    (.dict [("tool_name", .str "foo")]) "foo" (Value.dict [])
    rfl rfl rfl rfl

/-! ### C4 -/

/-- A transport answering with a well-formed fenced block. -/
def llmFenced : String → String := fun _ => "```yaml\nplaceholder\n```"

/-- A loader producing an answer decision whose final answer is empty. -/
def ylEmptyAnswer : String → Except PyError Value := fun _ =>
  .ok (Value.dict [("action", Value.str "answer"),
                   ("final_answer", Value.str "")])

/-- C4, counterexample: a decision with action answer and an empty
final_answer field makes run() terminate with the empty string as the
final answer, so the resulting final_answer is not non-empty. -/
theorem answerAction_empty_final_answer_concrete :
    agentRun llmFenced ylEmptyAnswer 5 "bp" [] [] [] "q" =
      .ok (Value.str "",
        [⟨"user", Value.str "q"⟩, ⟨"assistant", Value.str ""⟩], []) ∧
    pyStr (Value.str "") = "" :=
  ⟨rfl, rfl⟩

/-- C4, amended: for every Decision with action answer, the loop copies the
decision's final_answer field (which may be empty) into the run context,
moves to the answer node, and terminates in exactly one more step with no
further tool calls (the shared context is unchanged by that step) and no
further model calls (the same step also goes through under the degenerate
stub transport). -/
theorem answerAction_sets_answer_and_terminates (llm : String → String)
    (yamlLoad : String → Except PyError Value) (sh : Shared) (d f : Value)
    (n : Nat)
    (hexec : decideActionExec llm yamlLoad sh = .ok d)
    (ha : valueGet d "action" = .ok (Value.str "answer"))
    (hf : valueGet d "final_answer" = .ok f) :
    flowStep llm yamlLoad .deciding sh =
      .ok (.providingAnswer, setAnswer (setDecision sh d) f) ∧
    (setAnswer (setDecision sh d) f).finalAnswer = some f ∧
    (setAnswer (setDecision sh d) f).toolCalls = sh.toolCalls ∧
    flowStep llm yamlLoad .providingAnswer (setAnswer (setDecision sh d) f) =
      .ok (.done, setAnswer (setDecision sh d) f) ∧
    flowStep llmStub ylStub .providingAnswer (setAnswer (setDecision sh d) f) =
      .ok (.done, setAnswer (setDecision sh d) f) ∧
    runFlow llm yamlLoad (n + 2) .deciding sh =
      .ok (setAnswer (setDecision sh d) f) := by
  have hpost : decideActionPost sh d =
      .ok ("answer", setAnswer (setDecision sh d) f) :=
    decideActionPost_answer sh d (Value.str "answer") f ha rfl hf
  have hstep : flowStep llm yamlLoad .deciding sh =
      .ok (.providingAnswer, setAnswer (setDecision sh d) f) := by
    simp [flowStep, hexec, hpost, decideNext]
  refine ⟨hstep, rfl, rfl, flowStep_provideAnswer _ _ _,
    flowStep_provideAnswer _ _ _, ?_⟩
  have e1 : runFlow llm yamlLoad (n + 2) .deciding sh =
      match flowStep llm yamlLoad .deciding sh with
      | .error e => .error e
      | .ok (st1, sh1) => runFlow llm yamlLoad (n + 1) st1 sh1 := rfl
  rw [e1, hstep]
  have e2 : runFlow llm yamlLoad (n + 1) .providingAnswer
      (setAnswer (setDecision sh d) f) =
      runFlow llm yamlLoad n .done (setAnswer (setDecision sh d) f) := rfl
  exact e2.trans (runFlow_done llm yamlLoad n (setAnswer (setDecision sh d) f))

/-- C4, witness: the amended theorem applied at the concrete empty-answer
decision. -/
theorem answerAction_sets_answer_and_terminates_witness :
    flowStep llmFenced ylEmptyAnswer .deciding (initShared "bp" [] [] "q") =
      .ok (.providingAnswer,
        setAnswer (setDecision (initShared "bp" [] [] "q")
          (Value.dict [("action", Value.str "answer"),
                       ("final_answer", Value.str "")])) (Value.str "")) ∧
    (setAnswer (setDecision (initShared "bp" [] [] "q")
        (Value.dict [("action", Value.str "answer"),
                     ("final_answer", Value.str "")])) (Value.str "")).finalAnswer =
      some (Value.str "") ∧
    (setAnswer (setDecision (initShared "bp" [] [] "q")
        (Value.dict [("action", Value.str "answer"),
                     ("final_answer", Value.str "")])) (Value.str "")).toolCalls =
      (initShared "bp" [] [] "q").toolCalls ∧
    flowStep llmFenced ylEmptyAnswer .providingAnswer
      (setAnswer (setDecision (initShared "bp" [] [] "q")
        (Value.dict [("action", Value.str "answer"),
                     ("final_answer", Value.str "")])) (Value.str "")) =
      .ok (.done, setAnswer (setDecision (initShared "bp" [] [] "q")
        (Value.dict [("action", Value.str "answer"),
                     ("final_answer", Value.str "")])) (Value.str "")) ∧
    flowStep llmStub ylStub .providingAnswer
      (setAnswer (setDecision (initShared "bp" [] [] "q")
        (Value.dict [("action", Value.str "answer"),
                     ("final_answer", Value.str "")])) (Value.str "")) =
      .ok (.done, setAnswer (setDecision (initShared "bp" [] [] "q")
        (Value.dict [("action", Value.str "answer"),
                     ("final_answer", Value.str "")])) (Value.str "")) ∧
    runFlow llmFenced ylEmptyAnswer (0 + 2) .deciding
      (initShared "bp" [] [] "q") =
      .ok (setAnswer (setDecision (initShared "bp" [] [] "q")
        (Value.dict [("action", Value.str "answer"),
                     ("final_answer", Value.str "")])) (Value.str "")) :=
  answerAction_sets_answer_and_terminates llmFenced ylEmptyAnswer
    (initShared "bp" [] [] "q")
    (Value.dict [("action", Value.str "answer"),
                 ("final_answer", Value.str "")])
    (Value.str "") 0 rfl rfl rfl

/-! ### C5 -/

/-- C5: for any history with at least 20 messages, the rendered view is
exactly the formatting of the last 20 messages; that slice has length 20
and is a suffix of the raw history, so it is its most recent part in the
original oldest-first order. Rendering is a pure function of the history
(the Python slice copies), so the raw sequence is untouched. -/
theorem history_rendered_last_twenty (h : List Message)
    (hlen : 20 ≤ h.length) :
    getOptimizedHistory h =
      String.intercalate "\n"
        ((h.drop (h.length - 20)).map
          (fun m => pyUpper m.role ++ ": " ++ pyStr m.content)) ∧
    (h.drop (h.length - 20)).length = 20 ∧
    h.drop (h.length - 20) <:+ h := by
  have hlen2 : (h.drop (h.length - 20)).length = 20 := by
    rw [List.length_drop]; omega
  have hne : (h.drop (h.length - 20)).isEmpty = false := by
    cases hd : h.drop (h.length - 20) with
    | nil => rw [hd] at hlen2; simp at hlen2
    | cons a l => rfl
  exact ⟨by simp [getOptimizedHistory, hne], hlen2, List.drop_suffix _ _⟩

/-- A history of 25 accumulated messages. -/
def h25 : List Message := List.replicate 25 ⟨"user", Value.str "m"⟩

/-- C5, witness at the 25-message history of the scenario. -/
theorem history_rendered_last_twenty_witness :
    getOptimizedHistory h25 =
      String.intercalate "\n"
        ((h25.drop (h25.length - 20)).map
          (fun m => pyUpper m.role ++ ": " ++ pyStr m.content)) ∧
    (h25.drop (h25.length - 20)).length = 20 ∧
    h25.drop (h25.length - 20) <:+ h25 :=
  history_rendered_last_twenty h25 (by decide)

/-! ### C6 -/

/-- C6: a registered tool that returns normally has its result stringified
and recorded in exactly one appended record, with the invocation a keyword
call on the pair list when the arguments are a mapping and a single
positional call otherwise. -/
theorem tool_invoked_kwargs_or_positional (llm : String → String)
    (yamlLoad : String → Except PyError Value) (sh : Shared) (d : Value)
    (name : String) (args : Value) (info : ToolInfo) (v : Value)
    (hd : sh.lastDecision = some d)
    (hn : valueGet d "tool_name" = .ok (Value.str name))
    (ha : valueGetD d "tool_args" (Value.dict []) = .ok args)
    (hreg : List.lookup name sh.toolRegistry = some info)
    (hcall : pyInvoke info.function args = .ok v) :
    flowStep llm yamlLoad .callingTool sh =
      .ok (.deciding, pushRecord sh (Value.str name) args (pyStr v)) ∧
    (pushRecord sh (Value.str name) args (pyStr v)).toolCalls =
      sh.toolCalls ++ [⟨Value.str name, args, pyStr v⟩] ∧
    (isDictB args = true →
      pyInvoke info.function args = info.function.callKw (dictPairs args)) ∧
    (isDictB args = false →
      pyInvoke info.function args = info.function.callPos args) := by
  have hexec : callToolExec (some info.function, Value.str name, args)
      = pyStr v := by
    simp [callToolExec, hcall]
  refine ⟨?_, rfl, ?_, ?_⟩
  · simpa [hexec] using
      flowStep_callingTool llm yamlLoad sh _
        (callToolPrep_found sh d name args info hd hn ha hreg)
  · cases args <;> simp [pyInvoke, isDictB, dictPairs]
  · cases args <;> simp [pyInvoke, isDictB, dictPairs]

/-- A tool returning the integer 5 on a keyword call. -/
def addTool : PyCallable :=
  ⟨fun _ => .ok (.int 5), fun _ => .ok (.str "positional")⟩

/-- Registry entry for the adding tool. -/
def infoAdd : ToolInfo := ⟨"add", addTool, "Adds two numbers.", []⟩

/-- A decision selecting the adding tool with mapping arguments. -/
def dAdd : Value :=
  .dict [("action", .str "tool"), ("tool_name", .str "add"),
         ("tool_args", .dict [("a", .int 2), ("b", .int 3)])]

/-- A run context about to execute the adding tool. -/
def shAdd : Shared :=
  ⟨"What is 2+3?", "bp", "none", [("add", infoAdd)], [], some dAdd, none⟩

/-- C6, witness at the concrete keyword invocation. -/
theorem tool_invoked_kwargs_or_positional_witness :
    flowStep llmStub ylStub .callingTool shAdd =
      .ok (.deciding, pushRecord shAdd (Value.str "add")
        (Value.dict [("a", .int 2), ("b", .int 3)]) (pyStr (Value.int 5))) ∧
    (pushRecord shAdd (Value.str "add")
        (Value.dict [("a", .int 2), ("b", .int 3)])
        (pyStr (Value.int 5))).toolCalls =
      shAdd.toolCalls ++
        [⟨Value.str "add", Value.dict [("a", .int 2), ("b", .int 3)],
          pyStr (Value.int 5)⟩] ∧
    (isDictB (Value.dict [("a", .int 2), ("b", .int 3)]) = true →
      pyInvoke infoAdd.function (Value.dict [("a", .int 2), ("b", .int 3)]) =
        infoAdd.function.callKw
          (dictPairs (Value.dict [("a", .int 2), ("b", .int 3)]))) ∧
    (isDictB (Value.dict [("a", .int 2), ("b", .int 3)]) = false →
      pyInvoke infoAdd.function (Value.dict [("a", .int 2), ("b", .int 3)]) =
        infoAdd.function.callPos (Value.dict [("a", .int 2), ("b", .int 3)])) :=
  tool_invoked_kwargs_or_positional llmStub ylStub shAdd dAdd "add"
    (Value.dict [("a", .int 2), ("b", .int 3)]) infoAdd (Value.int 5)
    rfl rfl rfl rfl rfl

/-! ### C7 -/

/-- C7: the recent-tool-calls section is empty exactly when no record
exists; otherwise it is the header followed by one line per record of the
last-five slice, each line holding the first 200 characters of the result
and the ellipsis suffix (histLine); the slice never exceeds five records
and is a suffix of the sequence, so it is the most recent part in order. -/
theorem recent_tool_calls_section (tcs : List ToolCallRecord) :
    (tcs = [] → buildToolHistory tcs = "") ∧
    (tcs ≠ [] → buildToolHistory tcs =
      "\nRecent Tool Calls:\n" ++
        String.intercalate "\n"
          ((tcs.drop (tcs.length - 5)).map histLine)) ∧
    (tcs.drop (tcs.length - 5)).length ≤ 5 ∧
    tcs.drop (tcs.length - 5) <:+ tcs := by
  refine ⟨fun h => by simp [buildToolHistory, h], fun h => ?_, ?_,
    List.drop_suffix _ _⟩
  · have hne : tcs.isEmpty = false := by
      cases tcs with
      | nil => exact absurd rfl h
      | cons a l => rfl
    simp [buildToolHistory, hne]
  · rw [List.length_drop]; omega

/-- Seven recorded tool calls. -/
def tcs7 : List ToolCallRecord :=
  (List.range 7).map (fun i => ⟨Value.str "t", Value.dict [], toString i⟩)

/-- C7, witness at a seven-record sequence. -/
theorem recent_tool_calls_section_witness :
    (tcs7 = [] → buildToolHistory tcs7 = "") ∧
    (tcs7 ≠ [] → buildToolHistory tcs7 =
      "\nRecent Tool Calls:\n" ++
        String.intercalate "\n"
          ((tcs7.drop (tcs7.length - 5)).map histLine)) ∧
    (tcs7.drop (tcs7.length - 5)).length ≤ 5 ∧
    tcs7.drop (tcs7.length - 5) <:+ tcs7 :=
  recent_tool_calls_section tcs7

/-! ### C8 -/

/-- A callable whose docstring is the empty string. -/
def emptyDocTool : PyFunction :=
  ⟨"emptydoc", [], some "", ⟨fun _ => .ok .null, fun _ => .ok .null⟩⟩

/-- C8, counterexample: a callable with an empty documentation string still
gets the synthesized placeholder, so the description does not equal the
documentation string even though one exists. -/
theorem register_tool_empty_doc_concrete :
    emptyDocTool.doc = some "" ∧
    (register_tool emptyDocTool).description = "Function emptydoc" ∧
    ("Function emptydoc" : String) ≠ "" :=
  ⟨rfl, rfl, by decide⟩

/-- C8, amended: every parameter of a registered callable is stored with a
type label falling back to Any when unannotated, the declared default when
present and null otherwise (an explicit default of None collapses with
absent, as the code stores both as None), and its kind label; the
description equals the documentation string when that string is non-empty
and falls back to the synthesized placeholder when the documentation
string is missing or empty. -/
theorem register_tool_metadata (tool : PyFunction)
    (p : String × Option String × Option Value × String) (d : String)
    (hp : p ∈ tool.params) :
    (p.1, ({ type := p.2.1.getD "Any", default := storeDefault p.2.2.1,
             kind := p.2.2.2 } : ParamInfo)) ∈ (register_tool tool).parameters ∧
    (p.2.1 = none → p.2.1.getD "Any" = "Any") ∧
    (tool.doc = none →
      (register_tool tool).description = "Function " ++ tool.name) ∧
    (tool.doc = some "" →
      (register_tool tool).description = "Function " ++ tool.name) ∧
    (tool.doc = some d → d ≠ "" →
      (register_tool tool).description = d) := by
  refine ⟨?_, fun h => by simp [h], fun h => ?_, fun h => ?_, fun h hne => ?_⟩
  · exact List.mem_map_of_mem _ hp
  · simp [register_tool, docOrPlaceholder, h]
  · simp [register_tool, docOrPlaceholder, h]
  · simp [register_tool, docOrPlaceholder, h, hne]

/-- A documented callable with one unannotated parameter that has a
default. -/
def greetTool : PyFunction :=
  ⟨"greet",
   [("who", none, some (.str "world"), "POSITIONAL_OR_KEYWORD")],
   some "Greets someone.",
   ⟨fun _ => .ok .null, fun _ => .ok .null⟩⟩

/-- C8, witness for the amended theorem at the concrete callable. -/
theorem register_tool_metadata_witness :
    (("who" : String),
      ({ type := (none : Option String).getD "Any",
         default := storeDefault (some (.str "world")),
         kind := "POSITIONAL_OR_KEYWORD" } : ParamInfo)) ∈
        (register_tool greetTool).parameters ∧
    ((none : Option String) = none →
      (none : Option String).getD "Any" = "Any") ∧
    (greetTool.doc = none →
      (register_tool greetTool).description = "Function " ++ greetTool.name) ∧
    (greetTool.doc = some "" →
      (register_tool greetTool).description = "Function " ++ greetTool.name) ∧
    (greetTool.doc = some "Greets someone." → "Greets someone." ≠ "" →
      (register_tool greetTool).description = "Greets someone.") :=
  register_tool_metadata greetTool
    ("who", none, some (.str "world"), "POSITIONAL_OR_KEYWORD")
    "Greets someone." (List.mem_singleton.mpr rfl)

/-! ### C9 -/

/-- C9: the decision routes to the tool state exactly when the action field
is the string tool; any other action value, whatever it is, makes the loop
copy the final_answer field and terminate two steps later - no validation
restricts the action to the two labels. -/
theorem action_routing_exact_tool_string (llm : String → String)
    (yamlLoad : String → Except PyError Value) (sh : Shared) (d a f : Value)
    (hexec : decideActionExec llm yamlLoad sh = .ok d)
    (ha : valueGet d "action" = .ok a)
    (hf : valueGet d "final_answer" = .ok f) :
    (a = Value.str "tool" →
      flowStep llm yamlLoad .deciding sh = .ok (.callingTool, setDecision sh d)) ∧
    (a ≠ Value.str "tool" →
      flowStep llm yamlLoad .deciding sh =
        .ok (.providingAnswer, setAnswer (setDecision sh d) f) ∧
      (setAnswer (setDecision sh d) f).finalAnswer = some f ∧
      runFlow llm yamlLoad (0 + 2) .deciding sh =
        .ok (setAnswer (setDecision sh d) f)) := by
  constructor
  · intro htool
    subst htool
    have hpost := decideActionPost_tool sh d (Value.str "tool") ha rfl
    simp [flowStep, hexec, hpost, decideNext]
  · intro hne
    have ht : isToolAction a = false := by
      cases a with
      | str s =>
        have hs : s ≠ "tool" := fun e => hne (by rw [e])
        simp [isToolAction, hs]
      | null => rfl
      | bool b => rfl
      | int n => rfl
      | dict m => rfl
    have hpost := decideActionPost_answer sh d a f ha ht hf
    have hstep : flowStep llm yamlLoad .deciding sh =
        .ok (.providingAnswer, setAnswer (setDecision sh d) f) := by
      simp [flowStep, hexec, hpost, decideNext]
    refine ⟨hstep, rfl, ?_⟩
    have e1 : runFlow llm yamlLoad (0 + 2) .deciding sh =
        match flowStep llm yamlLoad .deciding sh with
        | .error e => .error e
        | .ok (st1, sh1) => runFlow llm yamlLoad (0 + 1) st1 sh1 := rfl
    rw [e1, hstep]
    have e2 : runFlow llm yamlLoad (0 + 1) .providingAnswer
        (setAnswer (setDecision sh d) f) =
        runFlow llm yamlLoad 0 .done (setAnswer (setDecision sh d) f) := rfl
    exact e2.trans
      (runFlow_done llm yamlLoad 0 (setAnswer (setDecision sh d) f))

/-- A loader producing a decision whose action is neither label. -/
def ylBanana : String → Except PyError Value := fun _ =>
  .ok (Value.dict [("action", Value.str "banana"),
                   ("final_answer", Value.str "whatever")])

/-- C9, witness: a decision whose action value is the string banana is not
routed to the tool state; the answer path runs and terminates. -/
theorem action_routing_exact_tool_string_witness :
    (Value.str "banana" = Value.str "tool" →
      flowStep llmFenced ylBanana .deciding (initShared "bp" [] [] "q") =
        .ok (.callingTool, setDecision (initShared "bp" [] [] "q")
          (Value.dict [("action", Value.str "banana"),
                       ("final_answer", Value.str "whatever")]))) ∧
    (Value.str "banana" ≠ Value.str "tool" →
      flowStep llmFenced ylBanana .deciding (initShared "bp" [] [] "q") =
        .ok (.providingAnswer,
          setAnswer (setDecision (initShared "bp" [] [] "q")
            (Value.dict [("action", Value.str "banana"),
                         ("final_answer", Value.str "whatever")]))
            (Value.str "whatever")) ∧
      (setAnswer (setDecision (initShared "bp" [] [] "q")
          (Value.dict [("action", Value.str "banana"),
                       ("final_answer", Value.str "whatever")]))
          (Value.str "whatever")).finalAnswer = some (Value.str "whatever") ∧
      runFlow llmFenced ylBanana (0 + 2) .deciding
          (initShared "bp" [] [] "q") =
        .ok (setAnswer (setDecision (initShared "bp" [] [] "q")
          (Value.dict [("action", Value.str "banana"),
                       ("final_answer", Value.str "whatever")]))
          (Value.str "whatever"))) :=
  action_routing_exact_tool_string llmFenced ylBanana
    (initShared "bp" [] [] "q")
    (Value.dict [("action", Value.str "banana"),
                 ("final_answer", Value.str "whatever")])
    (Value.str "banana") (Value.str "whatever") rfl rfl rfl

/-! ### C10 -/

/-- C10: when the flow hands back a run context with no final answer set,
run() returns the literal fallback string and appends that same string to
the persistent conversation history as the assistant message of the
exchange (the raw history keeps every earlier message). -/
theorem run_fallback_answer (llm : String → String)
    (yamlLoad : String → Except PyError Value) (fuel : Nat) (bp : String)
    (reg : List (String × ToolInfo)) (hist : List Message)
    (tch : List ToolCallRecord) (q : String) (sh : Shared)
    (hrun : runFlow llm yamlLoad fuel .deciding (initShared bp reg hist q) =
      .ok sh)
    (hfa : sh.finalAnswer = none) :
    agentRun llm yamlLoad fuel bp reg hist tch q =
      .ok (Value.str "Unable to generate response",
        (hist ++ [⟨"user", Value.str q⟩]) ++
          [⟨"assistant", Value.str "Unable to generate response"⟩],
        tch ++ sh.toolCalls) := by
  simp [agentRun, hrun, finishRun, hfa]

/-- C10, witness: a flow that performs no step leaves the final answer
unset, and run() yields the fallback string and records it. -/
theorem run_fallback_answer_witness :
    agentRun llmStub ylStub 0 "bp" [] [] [] "q" =
      .ok (Value.str "Unable to generate response",
        ([] ++ [⟨"user", Value.str "q"⟩]) ++
          [⟨"assistant", Value.str "Unable to generate response"⟩],
        [] ++ (initShared "bp" [] [] "q").toolCalls) :=
  run_fallback_answer llmStub ylStub 0 "bp" [] [] [] "q"
    (initShared "bp" [] [] "q") rfl rfl

end Minagent
